import Mathlib

/-!
Verification of the TGL automated QA suite's page object (`src/pages/HomePage.ts`)
against its natural-language specification.

The page object is embedded shallowly: every method of `HomePage` is translated,
statement by statement, into a trace of primitive browser commands (`Cmd`), the
same primitives the Playwright `Page`/`Locator` API exposes.  Selector
expressions become values of `Selector`.  Where a claim needs run-time semantics
(which element a locator resolves, what URL a run ends on) a small executable
interpreter over an abstract site is provided.
-/

namespace TGL

/-- Selector strategies as used in `HomePage.ts`:
`page.getByRole(r, name)`, `page.getByTestId(id)`, `page.locator(css)`,
`page.locator(text="t" >> visible=true)`, and the positional refinements
`.first()` / `.nth(n)`. -/
inductive Selector
  | role (r : String) (name : String)
  | testId (id : String)
  | css (sel : String)
  | textVisible (t : String)
  | firstOf (s : Selector)
  | nthOf (s : Selector) (n : Nat)
deriving DecidableEq, Repr

/-- Readiness policies accepted by `page.goto` / `page.reload` (`waitUntil`). -/
inductive ReadinessPolicy
  | load
  | domcontentloaded
  | networkidle
  | commit
deriving DecidableEq, Repr

/-- Primitive browser commands, one per awaited Playwright call in
`HomePage.ts` (plus `blurCmd`, the `Locator.blur` primitive of the
`BrowserSession` interface, used by an earlier revision of the file).
`waitVisible sel t` is `expect(locator).toBeVisible(timeout := t)` with
`t = none` when no timeout option is passed; `checkVisible` is the
non-blocking `locator.isVisible()` query; `fixedWait ms` is
`page.waitForTimeout(ms)`; `waitURL pat t` is
`expect(page).toHaveURL(/.*pat/, timeout := t)`. -/
inductive Cmd
  | gotoCmd (url : String) (policy : ReadinessPolicy)
  | waitVisible (sel : Selector) (timeoutMs : Option Nat)
  | checkVisible (sel : Selector)
  | fill (sel : Selector) (text : String)
  | press (sel : Selector) (key : String)
  | click (sel : Selector) (force : Bool)
  | blurCmd (sel : Selector)
  | scrollIntoView (sel : Selector)
  | fixedWait (ms : Nat)
  | waitURL (pattern : String) (timeoutMs : Option Nat)
  | consoleLog (msg : String)
deriving DecidableEq, Repr

/-! Locators defined in the `HomePage` constructor. -/

/-- `page.getByRole('textbox', name := 'Search')`. -/
def searchInput : Selector := .role "textbox" "Search"

/-- `page.locator('#navbar')`. -/
def navBar : Selector := .css "#navbar"

/-- `page.getByTestId('expand-button')`. -/
def mobileMenuButton : Selector := .testId "expand-button"

/-- `page.getByRole('button', name := 'Diabetes-breadcrumb')`. -/
def diabetesBreadcrumb : Selector := .role "button" "Diabetes-breadcrumb"

/-! Traces of the `HomePage` methods, translated line by line. -/

/-- `HomePage.goto`: `page.goto('/', waitUntil := 'domcontentloaded')`. -/
def gotoTrace : List Cmd :=
  [.gotoCmd "/" .domcontentloaded]

/-- `HomePage.searchForGuideline(term)`: wait for the search input
(30 s), fill it, press Enter, then `page.waitForTimeout(1000)`. -/
def searchForGuidelineTrace (term : String) : List Cmd :=
  [ .waitVisible searchInput (some 30000),
    .fill searchInput term,
    .press searchInput "Enter",
    .fixedWait 1000 ]

/-- Locator built by `HomePage.selectSearchResult`:
`page.locator(text="resultName" >> visible=true).first()`. -/
def selectSearchResultSel (resultName : String) : Selector :=
  .firstOf (.textVisible resultName)

/-- `HomePage.selectSearchResult(resultName)`: scroll the first visible
text match into view, wait for its visibility (10 s), click with
`force := true`. -/
def selectSearchResultTrace (resultName : String) : List Cmd :=
  [ .scrollIntoView (selectSearchResultSel resultName),
    .waitVisible (selectSearchResultSel resultName) (some 10000),
    .click (selectSearchResultSel resultName) true ]

/-- `HomePage.clickDiabetesBreadcrumb`: wait (30 s) then click. -/
def clickDiabetesBreadcrumbTrace : List Cmd :=
  [ .waitVisible diabetesBreadcrumb (some 30000),
    .click diabetesBreadcrumb false ]

/-- `page.getByRole('button', name := 'Navigate to Principles of management of diabetes')`. -/
def principlesBtn : Selector :=
  .role "button" "Navigate to Principles of management of diabetes"

/-- `HomePage.verifyPrinciplesTopicVisible`: visibility wait, 60 s timeout. -/
def verifyPrinciplesTopicVisibleTrace : List Cmd :=
  [.waitVisible principlesBtn (some 60000)]

/-- `HomePage.openPrinciplesTopic`: wait for the topic button (no timeout
option), click it, log. -/
def openPrinciplesTopicTrace : List Cmd :=
  [ .waitVisible principlesBtn none,
    .click principlesBtn false,
    .consoleLog "Action: Opened Principles of management topic page." ]

/-- Accessible-name derivation in `HomePage.toggleFavorite`:
`const ariaLabel = 'Favourite ' + topicName`. -/
def toggleFavoriteTargetName (topicName : String) : String :=
  "Favourite " ++ topicName

/-- `page.getByRole('button', name := ariaLabel)` in `toggleFavorite`. -/
def toggleFavoriteSel (topicName : String) : Selector :=
  .role "button" (toggleFavoriteTargetName topicName)

/-- `HomePage.toggleFavorite(topicName)`: wait for the favourite button
(no timeout option), click it, log. -/
def toggleFavoriteTrace (topicName : String) : List Cmd :=
  [ .waitVisible (toggleFavoriteSel topicName) none,
    .click (toggleFavoriteSel topicName) false,
    .consoleLog ("Action: Toggled favorite for " ++ topicName) ]

/-- `page.getByRole('link', name := 'Favourites').first()` (mobile branch). -/
def favouritesLinkFirst : Selector := .firstOf (.role "link" "Favourites")

/-- `page.getByRole('link', name := 'Favourites')` (desktop branch). -/
def favouritesLink : Selector := .role "link" "Favourites"

/-- `page.getByRole('button', name := 'Navigate to My favourites page')`. -/
def mobileFavButton : Selector := .role "button" "Navigate to My favourites page"

/-- `HomePage.navigateToFavorites`: branches on
`await this.mobileMenuButton.isVisible()` (the `checkVisible` query;
`mobileMenuVisible` is its result).  Mobile: log, click the hamburger,
`waitForTimeout(500)`, click the first `Favourites` link (no preceding
wait), wait for and click the `My favourites` card.  Desktop: wait for
and click the `Favourites` link.  Both paths end with
`expect(page).toHaveURL(/.*favourites/, timeout := 30000)`. -/
def navigateToFavoritesTrace (mobileMenuVisible : Bool) : List Cmd :=
  .checkVisible mobileMenuButton ::
  (if mobileMenuVisible then
    [ .consoleLog "Mobile View Detected: Opening Hamburger Menu first...",
      .click mobileMenuButton false,
      .fixedWait 500,
      .click favouritesLinkFirst false,
      .waitVisible mobileFavButton none,
      .click mobileFavButton false ]
  else
    [ .waitVisible favouritesLink none,
      .click favouritesLink false ]) ++
  [ .waitURL "favourites" (some 30000) ]

/-- `HomePage.verifyTopicInFavorites(topicName)`: wait (15 s) for the
first visible text match, log.  (The method returns the locator; it
performs no interaction.) -/
def verifyTopicInFavoritesTrace (topicName : String) : List Cmd :=
  [ .waitVisible (.firstOf (.textVisible topicName)) (some 15000),
    .consoleLog ("Verified: " ++ topicName ++ " exists in Favorites.") ]

/-! Classifiers over commands. -/

/-- A blind fixed-duration delay (`page.waitForTimeout`). -/
def isFixedDelay : Cmd → Bool
  | .fixedWait _ => true
  | _ => false

/-- A focus-relinquishing command (`Locator.blur`). -/
def isBlur : Cmd → Bool
  | .blurCmd _ => true
  | _ => false

/-- A bounded condition wait: a wait that suspends until an explicit
readiness condition holds (element visibility, URL pattern, element
attachment for scrolling). -/
def isCondWait : Cmd → Bool
  | .waitVisible _ _ => true
  | .waitURL _ _ => true
  | .scrollIntoView _ => true
  | _ => false

/-- The deadline explicitly passed at the call site (`timeout` option),
if any. -/
def explicitDeadline : Cmd → Option Nat
  | .waitVisible _ t => t
  | .waitURL _ t => t
  | _ => none

/-- Playwright's default timeout for `expect` assertions (ms). -/
def defaultExpectTimeoutMs : Nat := 5000

/-- Playwright Test's default per-test timeout (ms), which bounds every
awaited action even when no action timeout is configured. -/
def defaultTestTimeoutMs : Nat := 30000

/-- The deadline a condition wait effectively runs under: the explicit
`timeout` option where one is passed, otherwise the framework default
(5 s for `expect` assertions; the 30 s test timeout for actions such as
`scrollIntoViewIfNeeded`). -/
def effectiveDeadlineMs : Cmd → Option Nat
  | .waitVisible _ t => some (t.getD defaultExpectTimeoutMs)
  | .waitURL _ t => some (t.getD defaultExpectTimeoutMs)
  | .scrollIntoView _ => some defaultTestTimeoutMs
  | _ => none

/-- The fixed delays (in ms) a trace suspends on, in order. -/
def fixedDelays (tr : List Cmd) : List Nat :=
  tr.filterMap fun c =>
    match c with
    | .fixedWait ms => some ms
    | _ => none

/-- The element a command interacts with (click, fill, or key press). -/
def interactionTarget : Cmd → Option Selector
  | .click s _ => some s
  | .fill s _ => some s
  | .press s _ => some s
  | _ => none

/-- The element whose visibility a command establishes or checks before
later interactions (`expect(..).toBeVisible` or `isVisible`). -/
def guardSelector : Cmd → Option Selector
  | .waitVisible s _ => some s
  | .checkVisible s => some s
  | _ => none

/-- Membership of a selector in a list of already-guarded selectors. -/
def selMem (s : Selector) : List Selector → Bool
  | [] => false
  | a :: l => if s = a then true else selMem s l

/-- Scan of a trace collecting every interaction whose target selector
has no preceding visibility wait or check (`seen` accumulates guarded
selectors). -/
def unguardedGo (seen : List Selector) : List Cmd → List Cmd
  | [] => []
  | c :: cs =>
    match guardSelector c with
    | some s => unguardedGo (s :: seen) cs
    | none =>
      match interactionTarget c with
      | some s =>
        if selMem s seen then unguardedGo seen cs
        else c :: unguardedGo seen cs
      | none => unguardedGo seen cs

/-- The interactions of a trace not preceded by a visibility wait or
check on their target element ("blind" interactions). -/
def unguardedInteractions (tr : List Cmd) : List Cmd :=
  unguardedGo [] tr

/-- The selectors a trace mentions, in order. -/
def selectorsOf (tr : List Cmd) : List Selector :=
  tr.filterMap fun c =>
    match c with
    | .waitVisible s _ => some s
    | .checkVisible s => some s
    | .fill s _ => some s
    | .press s _ => some s
    | .click s _ => some s
    | .blurCmd s => some s
    | .scrollIntoView s => some s
    | _ => none

/-! DOM resolution semantics for `selectSearchResult`.  An element of the
results page carries its rendered text and whether it is currently
visible; the DOM is the document-order list of elements. -/

/-- An element of the page, as far as text locators observe it. -/
structure DomElem where
  label : String
  visible : Bool
deriving DecidableEq, Repr

/-- Resolution of `page.locator(text="label" >> visible=true)`: the
document-order sublist of elements whose text is `label` and which are
currently visible. -/
def visibleMatches (dom : List DomElem) (label : String) : List DomElem :=
  dom.filter fun e => e.label == label && e.visible

/-- Failure kinds of an operation run.  `waitTimeout sel` is the
framework's timeout error raised when an awaited condition on `sel` is
never met within its deadline; `ambiguousMatch` is the spec's error for
a selector resolving to an unusable number of candidates. -/
inductive OpError
  | waitTimeout (sel : Selector)
  | ambiguousMatch (label : String)
  | navigationError
  | assertionFailure
deriving DecidableEq, Repr

/-- Run of `HomePage.selectSearchResult(resultName)` against a DOM:
the locator filters to the visible text matches and takes the first;
if none exists, the awaited calls on the empty locator
(`scrollIntoViewIfNeeded`, `expect(..).toBeVisible`) raise the
framework's wait-timeout error; otherwise the first visible match is
scrolled into view, seen visible, and clicked.  Returns the clicked
element. -/
def selectSearchResultRun (dom : List DomElem) (resultName : String) :
    Except OpError DomElem :=
  match (visibleMatches dom resultName).head? with
  | none => .error (.waitTimeout (selectSearchResultSel resultName))
  | some e => .ok e

/-! URL semantics for `navigateToFavorites`.  The external site is an
oracle `site : Cmd → String → String` giving the URL after each
state-changing command; element visibility is an oracle
`vis : Selector → Bool`.  A run returns the final URL, or `none` when
an awaited condition does not hold. -/

/-- Test that `pat` occurs at the start of `hay` (character lists). -/
def charsPrefixOf : List Char → List Char → Bool
  | [], _ => true
  | _ :: _, [] => false
  | a :: as, b :: bs => if a = b then charsPrefixOf as bs else false

/-- Test that `pat` occurs somewhere inside `hay` (character lists). -/
def charsContains (pat : List Char) : List Char → Bool
  | [] => pat.isEmpty
  | c :: cs => charsPrefixOf pat (c :: cs) || charsContains pat cs

/-- Matching of the unanchored pattern `/.*pat/` against a URL: the URL
contains `pat` as a substring. -/
def urlMatches (url pat : String) : Bool :=
  charsContains pat.data url.data

/-- Interpreter for a command trace over the site and visibility
oracles, threading the current URL.  Condition waits succeed exactly
when their condition holds; queries, fixed delays and logs do not fail;
navigations and interactions update the URL through the site oracle. -/
def runTrace (site : Cmd → String → String) (vis : Selector → Bool) :
    List Cmd → String → Option String
  | [], u => some u
  | c :: cs, u =>
    match c with
    | .waitVisible s _ => if vis s then runTrace site vis cs u else none
    | .waitURL pat _ => if urlMatches u pat then runTrace site vis cs u else none
    | .gotoCmd _ _ => runTrace site vis cs (site c u)
    | .click _ _ => runTrace site vis cs (site c u)
    | .fill _ _ => runTrace site vis cs (site c u)
    | .press _ _ => runTrace site vis cs (site c u)
    | _ => runTrace site vis cs u

/-- Helper: a run of a trace whose final command asserts the URL pattern
`pat` can succeed only with a final URL matching `pat`. -/
theorem runTrace_append_waitURL (site : Cmd → String → String)
    (vis : Selector → Bool) (pat : String) (t : Option Nat) :
    ∀ (tr : List Cmd) (u0 u1 : String),
      runTrace site vis (tr ++ [.waitURL pat t]) u0 = some u1 →
      urlMatches u1 pat = true := by
  intro tr
  induction tr with
  | nil =>
    intro u0 u1 h
    simp only [List.nil_append, runTrace] at h
    split_ifs at h with hc
    cases h; exact hc
  | cons c cs ih =>
    intro u0 u1 h
    cases c <;> simp only [List.cons_append, runTrace] at h <;>
      first
        | exact ih _ _ h
        | (split_ifs at h with hc; exact ih _ _ h)

/-- C1 (counterexample): for the concrete search term "Diabetes",
`searchForGuideline` issues no `blur` command at all — it does not
relinquish input focus, contrary to the claim. -/
theorem searchForGuideline_blur_refuted :
    ((searchForGuidelineTrace "Diabetes").all fun c => !isBlur c) = true := by
  decide

/-- C1 (amended): for every search term, `searchForGuideline` waits for
the search control to be visible (30 s), fills it with the term, submits
with Enter, and then suspends on a fixed 1000 ms delay to let the DOM
settle; it never blurs the search input. -/
theorem searchForGuideline_fixed_settle_no_blur (term : String) :
    searchForGuidelineTrace term
      = [ .waitVisible searchInput (some 30000),
          .fill searchInput term,
          .press searchInput "Enter",
          .fixedWait 1000 ]
    ∧ ((searchForGuidelineTrace term).all fun c => !isBlur c) = true :=
  ⟨rfl, rfl⟩

/-- C2 (counterexample): `searchForGuideline "Diabetes"` suspends on a
blind fixed-duration delay (`page.waitForTimeout(1000)`), refuting the
claim that no operation ever does. -/
theorem no_blind_delay_refuted :
    ((searchForGuidelineTrace "Diabetes").all fun c => !isFixedDelay c) = false := by
  decide

/-- C2 (amended): the operations are free of blind fixed-duration delays
except exactly two: `searchForGuideline` suspends for a fixed 1000 ms
after submitting, and the mobile branch of `navigateToFavorites`
suspends for a fixed 500 ms after opening the hamburger menu. -/
theorem fixedDelays_of_operations (term resultName topicName : String) :
    fixedDelays gotoTrace = []
    ∧ fixedDelays (searchForGuidelineTrace term) = [1000]
    ∧ fixedDelays (selectSearchResultTrace resultName) = []
    ∧ fixedDelays clickDiabetesBreadcrumbTrace = []
    ∧ fixedDelays verifyPrinciplesTopicVisibleTrace = []
    ∧ fixedDelays openPrinciplesTopicTrace = []
    ∧ fixedDelays (toggleFavoriteTrace topicName) = []
    ∧ fixedDelays (navigateToFavoritesTrace true) = [500]
    ∧ fixedDelays (navigateToFavoritesTrace false) = []
    ∧ fixedDelays (verifyTopicInFavoritesTrace topicName) = [] :=
  ⟨rfl, rfl, rfl, rfl, rfl, rfl, rfl, rfl, rfl, rfl⟩

/-- C3 (counterexample): in the mobile branch of `navigateToFavorites`,
the click on the first `Favourites` link is performed with no preceding
visibility wait or check on that element — a blind interaction. -/
theorem blind_interaction_in_mobile_favorites :
    unguardedInteractions (navigateToFavoritesTrace true)
      = [Cmd.click favouritesLinkFirst false] := by
  decide

/-- C3 (amended): every click, fill, or key press performed by any
operation is preceded by a visibility wait or check on its target
element, with a single exception: the click on the first `Favourites`
link in the mobile branch of `navigateToFavorites`. -/
theorem guarded_interactions_except_mobile_favourites_link
    (term resultName topicName : String) :
    unguardedInteractions gotoTrace = []
    ∧ unguardedInteractions (searchForGuidelineTrace term) = []
    ∧ unguardedInteractions (selectSearchResultTrace resultName) = []
    ∧ unguardedInteractions clickDiabetesBreadcrumbTrace = []
    ∧ unguardedInteractions verifyPrinciplesTopicVisibleTrace = []
    ∧ unguardedInteractions openPrinciplesTopicTrace = []
    ∧ unguardedInteractions (toggleFavoriteTrace topicName) = []
    ∧ unguardedInteractions (navigateToFavoritesTrace false) = []
    ∧ unguardedInteractions (verifyTopicInFavoritesTrace topicName) = []
    ∧ unguardedInteractions (navigateToFavoritesTrace true)
        = [Cmd.click favouritesLinkFirst false] := by
  refine ⟨rfl, rfl, ?_, rfl, rfl, rfl, ?_, rfl, rfl, rfl⟩ <;>
    simp [unguardedInteractions, unguardedGo, guardSelector, interactionTarget, selMem,
      selectSearchResultTrace, toggleFavoriteTrace]

/-- C4 (confirmed): whatever element `selectSearchResult` clicks is
visible, carries the requested label, and is the first element of the
visible subset of matches (document order) — resolution discriminates
by visibility, not by positional index.  In particular, on a DOM holding
a hidden "Diabetes" element before a visible one, the visible one is
clicked. -/
theorem selectSearchResult_clicks_first_visible :
    (∀ (dom : List DomElem) (name : String) (e : DomElem),
        selectSearchResultRun dom name = .ok e →
        e.visible = true ∧ e.label = name ∧ (visibleMatches dom name).head? = some e)
    ∧ selectSearchResultRun [⟨"Diabetes", false⟩, ⟨"Diabetes", true⟩] "Diabetes"
        = .ok ⟨"Diabetes", true⟩ := by
  constructor
  · intro dom name e h
    unfold selectSearchResultRun at h
    cases hvm : visibleMatches dom name with
    | nil => rw [hvm] at h; cases h
    | cons b l =>
      rw [hvm] at h
      simp only [List.head?] at h
      injection h with he
      subst he
      have hmem : b ∈ visibleMatches dom name := by
        rw [hvm]
        exact List.mem_cons_self _ _
      unfold visibleMatches at hmem
      have hp := (List.mem_filter.mp hmem).2
      simp only [Bool.and_eq_true, beq_iff_eq] at hp
      exact ⟨hp.2, hp.1, rfl⟩
  · rfl

/-- C4 witness: the general part applied to the two-element DOM of the
claim, with the hypothesis discharged by evaluation. -/
theorem selectSearchResult_clicks_first_visible_witness :
    (DomElem.mk "Diabetes" true).visible = true
    ∧ (DomElem.mk "Diabetes" true).label = "Diabetes"
    ∧ (visibleMatches [⟨"Diabetes", false⟩, ⟨"Diabetes", true⟩] "Diabetes").head?
        = some ⟨"Diabetes", true⟩ :=
  selectSearchResult_clicks_first_visible.1
    [⟨"Diabetes", false⟩, ⟨"Diabetes", true⟩] "Diabetes" ⟨"Diabetes", true⟩ rfl

/-- C5 (counterexample): on a DOM whose single "Diabetes" element is
hidden, `selectSearchResult` fails with the framework's wait-timeout
error on the visible-text locator — an error kind distinct from
`AmbiguousMatchError`. -/
theorem selectSearchResult_ambiguousMatch_refuted :
    selectSearchResultRun [⟨"Diabetes", false⟩] "Diabetes"
      = .error (.waitTimeout (selectSearchResultSel "Diabetes"))
    ∧ OpError.waitTimeout (selectSearchResultSel "Diabetes")
      ≠ OpError.ambiguousMatch "Diabetes" :=
  ⟨rfl, by decide⟩

/-- C5 (amended): if zero visible elements match the requested label,
`selectSearchResult` fails with the wait-timeout error kind (the awaited
element never became ready) — the code raises no distinct
ambiguous-match error. -/
theorem selectSearchResult_zero_visible_timeout (dom : List DomElem)
    (name : String) (h : visibleMatches dom name = []) :
    selectSearchResultRun dom name
      = .error (.waitTimeout (selectSearchResultSel name)) := by
  unfold selectSearchResultRun
  rw [h]
  rfl

/-- C5 witness: the amended theorem applied to a concrete DOM with a
hidden match only. -/
theorem selectSearchResult_zero_visible_timeout_witness :
    selectSearchResultRun [⟨"Diabetes", false⟩] "Diabetes"
      = .error (.waitTimeout (selectSearchResultSel "Diabetes")) :=
  selectSearchResult_zero_visible_timeout [⟨"Diabetes", false⟩] "Diabetes" (by rfl)

/-- C6 (confirmed): on either code path (collapsed-navigation affordance
present or not), a successful run of `navigateToFavorites` ends on a URL
matching the pattern `favourites`, and its arrival assertion — the final
command of the trace — is a URL-pattern wait, not a content wait. -/
theorem navigateToFavorites_reaches_favourites_url
    (site : Cmd → String → String) (vis : Selector → Bool) (b : Bool)
    (u0 u1 : String)
    (h : runTrace site vis (navigateToFavoritesTrace b) u0 = some u1) :
    urlMatches u1 "favourites" = true
    ∧ (navigateToFavoritesTrace b).getLast?
        = some (.waitURL "favourites" (some 30000)) := by
  refine ⟨?_, by cases b <;> rfl⟩
  have hform : navigateToFavoritesTrace b
      = (Cmd.checkVisible mobileMenuButton ::
          (if b then
            [ .consoleLog "Mobile View Detected: Opening Hamburger Menu first...",
              .click mobileMenuButton false,
              .fixedWait 500,
              .click favouritesLinkFirst false,
              .waitVisible mobileFavButton none,
              .click mobileFavButton false ]
          else
            [ .waitVisible favouritesLink none,
              .click favouritesLink false ]))
        ++ [Cmd.waitURL "favourites" (some 30000)] := by
    cases b <;> rfl
  exact runTrace_append_waitURL site vis "favourites" (some 30000) _ u0 u1 (hform ▸ h)

/-- C6 witness: a concrete site on which the mobile-path run succeeds,
with the hypothesis discharged by evaluation. -/
theorem navigateToFavorites_reaches_favourites_url_witness :
    urlMatches "https://test.app/favourites" "favourites" = true
    ∧ (navigateToFavoritesTrace true).getLast?
        = some (.waitURL "favourites" (some 30000)) :=
  navigateToFavorites_reaches_favourites_url
    (fun c u =>
      match c with
      | .click _ _ => "https://test.app/favourites"
      | _ => u)
    (fun _ => true) true "https://test.app/" "https://test.app/favourites" (by decide)

/-- C7 (confirmed): `toggleFavorite` derives the target control's
accessible name as exactly `"Favourite " ++ topicName`, and every
selector the operation mentions is the role-button selector carrying
that derived name — the derivation is the single point at which the
name is constructed. -/
theorem toggleFavorite_accessible_name (topicName : String) :
    toggleFavoriteTargetName topicName = "Favourite " ++ topicName
    ∧ toggleFavoriteSel topicName
        = .role "button" (toggleFavoriteTargetName topicName)
    ∧ selectorsOf (toggleFavoriteTrace topicName)
        = [toggleFavoriteSel topicName, toggleFavoriteSel topicName] :=
  ⟨rfl, rfl, rfl⟩

/-- C8 (confirmed): `goto` loads the root route under the
DOM-content-loaded readiness policy, which is not the network-idle
policy. -/
theorem goto_domcontentloaded_policy :
    gotoTrace = [.gotoCmd "/" .domcontentloaded]
    ∧ ReadinessPolicy.domcontentloaded ≠ ReadinessPolicy.networkidle := by
  decide

/-- C9 (counterexample): the visibility wait of `toggleFavorite` is
issued with no explicit timeout option, refuting the claim that every
condition wait carries an explicit deadline. -/
theorem explicit_deadline_refuted :
    ((toggleFavoriteTrace "Principles of management of diabetes").all
      fun c => !isCondWait c || (explicitDeadline c).isSome) = false := by
  decide

/-- C9 (amended): every condition wait of every operation runs under a
finite positive effective deadline — the explicit `timeout` option where
one is passed, the framework's finite default otherwise — so no awaited
condition can suspend an operation indefinitely. -/
theorem condition_waits_effectively_bounded (term resultName topicName : String) :
    (gotoTrace.all fun c => !isCondWait c || (effectiveDeadlineMs c).getD 0 != 0) = true
    ∧ ((searchForGuidelineTrace term).all
        fun c => !isCondWait c || (effectiveDeadlineMs c).getD 0 != 0) = true
    ∧ ((selectSearchResultTrace resultName).all
        fun c => !isCondWait c || (effectiveDeadlineMs c).getD 0 != 0) = true
    ∧ (clickDiabetesBreadcrumbTrace.all
        fun c => !isCondWait c || (effectiveDeadlineMs c).getD 0 != 0) = true
    ∧ (verifyPrinciplesTopicVisibleTrace.all
        fun c => !isCondWait c || (effectiveDeadlineMs c).getD 0 != 0) = true
    ∧ (openPrinciplesTopicTrace.all
        fun c => !isCondWait c || (effectiveDeadlineMs c).getD 0 != 0) = true
    ∧ ((toggleFavoriteTrace topicName).all
        fun c => !isCondWait c || (effectiveDeadlineMs c).getD 0 != 0) = true
    ∧ ((navigateToFavoritesTrace true).all
        fun c => !isCondWait c || (effectiveDeadlineMs c).getD 0 != 0) = true
    ∧ ((navigateToFavoritesTrace false).all
        fun c => !isCondWait c || (effectiveDeadlineMs c).getD 0 != 0) = true
    ∧ ((verifyTopicInFavoritesTrace topicName).all
        fun c => !isCondWait c || (effectiveDeadlineMs c).getD 0 != 0) = true :=
  ⟨rfl, rfl, rfl, rfl, rfl, rfl, rfl, rfl, rfl, rfl⟩

/-- C10 (confirmed): the accessible-name derivation of `toggleFavorite`
is injective — distinct topic names always derive distinct control
names, so invocations for distinct topics never target the same
control. -/
theorem toggleFavoriteTargetName_injective (t1 t2 : String) (h : t1 ≠ t2) :
    toggleFavoriteTargetName t1 ≠ toggleFavoriteTargetName t2 := by
  intro hc
  apply h
  have hd : ("Favourite " ++ t1).data = ("Favourite " ++ t2).data :=
    congrArg String.data hc
  rw [String.data_append, String.data_append] at hd
  exact String.ext (List.append_cancel_left hd)

/-- C10 witness: the injectivity theorem applied to two concrete topic
names. -/
theorem toggleFavoriteTargetName_injective_witness :
    toggleFavoriteTargetName "Diabetes"
      ≠ toggleFavoriteTargetName "Principles of management of diabetes" :=
  toggleFavoriteTargetName_injective "Diabetes"
    "Principles of management of diabetes" (by decide)

end TGL
